import Mathlib

/-!
Shallow embedding of the AI-MEDIA-DETECTION front-end (JavaScript/React)
in Lean 4, with theorems checking the natural-language specification
against the code.

Embedded source files:
  - services/api.js        (detectImage, detectVideo, checkHealth)
  - App.js                 (checkApiHealth, handleFileSelect, handleRemove,
                            handleAnalyze, analyze-button disabling)
  - UploadArea.jsx         (handleFile intake validation)
  - VideoPreview.jsx       (object-URL creation on render)
  - VideoResults.jsx       (video result renderer)
  - Results.jsx            (image result renderer)

JavaScript numbers are idealized as exact fractions (integer numerator and
denominator); all concrete values in the claims have short exact decimal
expansions, so this idealization agrees with IEEE-754 evaluation on them.
-/

/-- A JavaScript number, idealized as an exact fraction.  The denominator
is kept positive by construction at every use site; `norm` repairs a
negative denominator produced by division. -/
structure JsNum where
  n : Int
  d : Int
deriving DecidableEq

/-- Embed an integer literal as a JavaScript number. -/
def JsNum.ofInt (k : Int) : JsNum := ⟨k, 1⟩

/-- Sign-normalize so the denominator is nonnegative. -/
def JsNum.norm (a : JsNum) : JsNum := if a.d < 0 then ⟨-a.n, -a.d⟩ else a

/-- JavaScript multiplication. -/
def JsNum.mul (a b : JsNum) : JsNum := ⟨a.n * b.n, a.d * b.d⟩

/-- JavaScript division (all divisions in the embedded code are guarded to
have a nonzero divisor). -/
def JsNum.div (a b : JsNum) : JsNum := ⟨a.n * b.d, a.d * b.n⟩

/-- JavaScript strict less-than on numbers. -/
def JsNum.lt (a b : JsNum) : Bool :=
  let a := a.norm
  let b := b.norm
  a.n * b.d < b.n * a.d

/-- Left-pad the decimal digits of a natural number to width `d`. -/
def natPad (d : Nat) (m : Nat) : String :=
  let s := toString m
  String.mk (List.replicate (d - s.length) '0') ++ s

/-- Embeds JavaScript Number.prototype.toFixed: round to `d` decimal
digits, ties away from the smaller value, and render with exactly `d`
digits after the point. -/
def JsNum.toFixed (a : JsNum) (d : Nat) : String :=
  let a := a.norm
  let r : Int := Int.fdiv (a.n * (10 : Int) ^ d * 2 + a.d) (a.d * 2)
  let m := r.natAbs
  let p := (10 : Nat) ^ d
  let sign := if r < 0 then "-" else ""
  if d = 0 then sign ++ toString m
  else sign ++ toString (m / p) ++ "." ++ natPad d (m % p)

/-- Smallest exponent `k` below the fuel bound such that `x * 10 ^ k` is a
multiple of `y`. -/
def decExpAux : Nat → Int → Int → Nat
  | 0, _, _ => 0
  | k + 1, x, y => if x % y = 0 then 0 else 1 + decExpAux k (x * 10) y

/-- Embeds JavaScript Number-to-string conversion for numbers with a
terminating decimal expansion: print the shortest exact decimal form.
Every number printed this way by the embedded code terminates within the
fuel bound. -/
def JsNum.toJsString (a : JsNum) : String :=
  let a := a.norm
  let k := decExpAux 20 a.n a.d
  let m : Int := a.n * (10 : Int) ^ k / a.d
  let mm := m.natAbs
  let sign := if m < 0 then "-" else ""
  if k = 0 then sign ++ toString mm
  else sign ++ toString (mm / 10 ^ k) ++ "." ++ natPad k (mm % 10 ^ k)

/-- Embeds the JavaScript expression `x || fb` where `x` is a string field
that may be absent: an absent or empty (falsy) string yields the
fallback. -/
def jsOrStr (x : Option String) (fb : String) : String :=
  match x with
  | some s => if s = "" then fb else s
  | none => fb

/-- Embeds the JavaScript expression `x || fb` where `x` is a numeric
field that may be absent: an absent value or the falsy number 0 yields
the fallback. -/
def jsOrNum (x : Option JsNum) (fb : JsNum) : JsNum :=
  match x with
  | some v => if v.n = 0 then fb else v
  | none => fb

/-- Embeds `x || 'N/A'` on a numeric field rendered as text. -/
def jsNumOrNA (x : Option JsNum) : String :=
  match x with
  | some v => if v.n = 0 then "N/A" else v.toJsString
  | none => "N/A"

/-- Embeds `x || 'N/A'` on a string field. -/
def jsStrOrNA (x : Option String) : String :=
  match x with
  | some s => if s = "" then "N/A" else s
  | none => "N/A"

/-- Embeds JavaScript String.prototype.startsWith. -/
def jsStartsWith (s p : String) : Bool := p.data.isPrefixOf s.data

/-- A JavaScript value that is either a string or a number (the type of
the `fakePercent` and `realPercent` ternary expressions in
VideoResults.jsx). -/
inductive StrOrNum where
  | str (s : String)
  | num (v : JsNum)
deriving DecidableEq

/-- How a string-or-number value renders inside JSX text. -/
def StrOrNum.display : StrOrNum → String
  | .str s => s
  | .num v => v.toJsString

/-! ## services/api.js -/

/-- The response payload of a detection endpoint, as consumed by the
embedded code: a `success` flag and an optional `error` string. -/
structure DetectResponse where
  success : Bool
  error : Option String
deriving DecidableEq

/-- The shape of an axios failure as discriminated by the embedded error
handlers, in the order the code tests it: `response` (a server response
was received, carrying an optional `data.error` string), `request` (the
request was made but no response arrived), and `setup` (the failure
happened before any request was made). -/
inductive AxiosFailure where
  | response (dataError : Option String)
  | request
  | setup
deriving DecidableEq

/-- Embeds the catch-block of detectImage in services/api.js:
`error.response` yields `error.response.data.error || 'Detection failed'`,
`error.request` yields the fixed connect message, anything else the
generic request message. -/
def detectImageErrMsg : AxiosFailure → String
  | .response e => jsOrStr e "Detection failed"
  | .request => "Cannot connect to server"
  | .setup => "An error occurred while processing the request"

/-- Embeds the catch-block of detectVideo in services/api.js. -/
def detectVideoErrMsg : AxiosFailure → String
  | .response e => jsOrStr e "Video detection failed"
  | .request => "Cannot connect to server"
  | .setup => "An error occurred while processing the video"

/-- Embeds detectImage: a single attempt either returns `response.data`
or throws an Error whose message is produced by the catch-block. -/
def detectImage (attempt : Except AxiosFailure DetectResponse) :
    Except String DetectResponse :=
  match attempt with
  | .ok r => .ok r
  | .error f => .error (detectImageErrMsg f)

/-- Embeds detectVideo: same single-attempt shape as detectImage with its
own catch-block messages. -/
def detectVideo (attempt : Except AxiosFailure DetectResponse) :
    Except String DetectResponse :=
  match attempt with
  | .ok r => .ok r
  | .error f => .error (detectVideoErrMsg f)

/-- The axios request config of detectImage carries no timeout key. -/
def detectImageTimeoutMs : Option Nat := none

/-- The axios request config of detectVideo sets the literal
`timeout: 300000`. -/
def detectVideoTimeoutMs : Nat := 300000

/-- The health payload read by the App: `status` and `detector_ready`. -/
structure Health where
  status : String
  detector_ready : Bool
deriving DecidableEq

/-! ## App.js -/

/-- The apiStatus state values of the App component. -/
inductive ApiStatus where
  | checking
  | ready
  | notReady
  | offline
deriving DecidableEq

/-- Embeds checkApiHealth in App.js: on a response, ready exactly when
`health.status === 'ok' && health.detector_ready`; on a thrown failure,
offline. -/
def checkApiHealth (outcome : Except Unit Health) : ApiStatus :=
  match outcome with
  | .ok health =>
    if decide (health.status = "ok") && health.detector_ready then
      ApiStatus.ready
    else
      ApiStatus.notReady
  | .error _ => ApiStatus.offline

/-- Embeds the disabled attribute of the Analyze button in App.js:
`loading || apiStatus !== 'ready'`. -/
def analyzeDisabled (loading : Bool) (apiStatus : ApiStatus) : Bool :=
  loading || !(decide (apiStatus = ApiStatus.ready))

/-- Embeds the tail of handleAnalyze in App.js, as a function of the
outcome of the awaited detect call: returns the final (result, error)
state pair.  Both are reset to null before the call; a payload with a
true success flag is stored as the result; a false success flag stores
`response.error || 'Detection failed'` as the error; a thrown error
stores its message. -/
def handleAnalyzeOutcome (response : Except String DetectResponse) :
    Option DetectResponse × Option String :=
  match response with
  | .ok r =>
    if r.success then (some r, none)
    else (none, some (jsOrStr r.error "Detection failed"))
  | .error msg => (none, some msg)

/-- A selected file as the embedded code reads it: name, declared MIME
type, size in bytes. -/
structure FileObj where
  name : String
  type : String
  size : Nat
deriving DecidableEq

/-- The App state fields touched by file selection and removal.  Object
URLs are identified by the order of their creation. -/
structure AppState where
  selectedFile : Option FileObj
  imageUrl : Option Nat
  result : Option DetectResponse
  error : Option String
deriving DecidableEq

/-- An observable object-URL lifecycle event: URL.createObjectURL or
URL.revokeObjectURL on the identified URL. -/
inductive UrlEffect where
  | create (u : Nat)
  | revoke (u : Nat)
deriving DecidableEq

/-- Embeds handleFileSelect in App.js: stores the file, creates a fresh
object URL for it, clears result and error.  Returns the new state, the
next fresh URL id, and the emitted URL effects. -/
def handleFileSelect (file : FileObj) (nextUrl : Nat) :
    AppState × Nat × List UrlEffect :=
  (⟨some file, some nextUrl, none, none⟩, nextUrl + 1, [UrlEffect.create nextUrl])

/-- Embeds handleRemove in App.js: revokes the stored object URL when one
is present and clears all four state fields. -/
def handleRemove (st : AppState) : AppState × List UrlEffect :=
  (⟨none, none, none, none⟩,
    match st.imageUrl with
    | some u => [UrlEffect.revoke u]
    | none => [])

/-! ## VideoPreview.jsx -/

/-- Embeds the body of the VideoPreview component: every render evaluates
`URL.createObjectURL(file)` afresh, and the component never revokes it. -/
def VideoPreview_render (nextUrl : Nat) : Nat × List UrlEffect :=
  (nextUrl + 1, [UrlEffect.create nextUrl])

/-- Number of revocations of URL `u` in a trace. -/
def revokeCount (trace : List UrlEffect) (u : Nat) : Nat :=
  trace.countP (fun e => decide (e = UrlEffect.revoke u))

/-- The object-URL trace of selecting a video file, rendering its preview
once, and removing it. -/
def videoScenarioTrace : List UrlEffect :=
  let s1 := handleFileSelect ⟨"clip.mp4", "video/mp4", 1000⟩ 0
  let r1 := VideoPreview_render s1.2.1
  let s2 := handleRemove s1.1
  s1.2.2 ++ r1.2 ++ s2.2

/-- The object-URL trace of selecting an image file, rendering its
preview (ImagePreview reuses the stored URL and creates none), and
removing it. -/
def imageScenarioTrace : List UrlEffect :=
  let s1 := handleFileSelect ⟨"pic.png", "image/png", 1000⟩ 0
  let s2 := handleRemove s1.1
  s1.2.2 ++ s2.2

/-! ## UploadArea.jsx -/

/-- The outcome of intake validation: a type rejection (alert message), a
size rejection (alert message), or acceptance forwarding the file to
`onFileSelect`. -/
inductive IntakeOutcome where
  | rejectedType (message : String)
  | rejectedSize (message : String)
  | accepted (file : FileObj)
deriving DecidableEq

/-- Embeds handleFile in UploadArea.jsx: classify by declared MIME type,
reject non-media types, reject oversize files against the per-category
ceiling (50MB video, 16MB image), otherwise forward the file unchanged. -/
def handleFile (file : FileObj) : IntakeOutcome :=
  let isImage := jsStartsWith file.type "image/"
  let isVideo := jsStartsWith file.type "video/"
  if !isImage && !isVideo then
    IntakeOutcome.rejectedType "Please select an image or video file"
  else
    let maxSize := if isVideo then 50 * 1024 * 1024 else 16 * 1024 * 1024
    let maxSizeText := if isVideo then "50MB" else "16MB"
    if file.size > maxSize then
      IntakeOutcome.rejectedSize ("File too large. Maximum size is " ++ maxSizeText)
    else
      IntakeOutcome.accepted file

/-! ## VideoResults.jsx -/

namespace VideoResults

/-- Embeds getVerdictColor in VideoResults.jsx. -/
def getVerdictColor (verdict : String) : String :=
  if verdict = "FAKE" then "danger"
  else if verdict = "REAL" then "success"
  else if verdict = "UNCERTAIN" then "warning"
  else "secondary"

/-- Embeds getVerdictIcon in VideoResults.jsx. -/
def getVerdictIcon (verdict : String) : String :=
  if verdict = "FAKE" then "⚠️"
  else if verdict = "REAL" then "✓"
  else if verdict = "UNCERTAIN" then "?"
  else ""

/-- Embeds getAgreementColor in VideoResults.jsx. -/
def getAgreementColor (level : String) : String :=
  if level = "HIGH" then "success"
  else if level = "MEDIUM" then "warning"
  else if level = "LOW" then "danger"
  else "secondary"

end VideoResults

/-- The `analysis` sub-object of a video Detection Result; every field the
renderer reads may be absent. -/
structure VideoAnalysis where
  total_frames_analyzed : Option JsNum
  fake_frames : Option JsNum
  real_frames : Option JsNum
  uncertain_frames : Option JsNum
deriving DecidableEq

/-- The `video_info` sub-object of a video Detection Result. -/
structure VideoInfo where
  duration : Option JsNum
  fps : Option JsNum
  resolution : Option String
deriving DecidableEq

/-- One row of `model_breakdown` in a video Detection Result. -/
structure BreakdownEntry where
  model : String
  prediction : String
  confidence : JsNum
  fake_frame_count : JsNum
  real_frame_count : JsNum
deriving DecidableEq

/-- A video Detection Result, with each optional sub-object modelled as an
Option exactly where the renderer guards or coalesces it. -/
structure VideoResult where
  verdict : String
  confidence : JsNum
  agreement_level : String
  analysis : Option VideoAnalysis
  video_info : Option VideoInfo
  processing_time_seconds : Option JsNum
  model_breakdown : Option (List BreakdownEntry)
  suspicious_frames : Option (List JsNum)
  confidence_timeline : Option (List JsNum)
deriving DecidableEq

/-- Embeds `result.analysis?.total_frames_analyzed || 0`. -/
def totalFrames (result : VideoResult) : JsNum :=
  jsOrNum (result.analysis.bind VideoAnalysis.total_frames_analyzed) (JsNum.ofInt 0)

/-- Embeds `result.analysis?.fake_frames || 0`. -/
def fakeFrames (result : VideoResult) : JsNum :=
  jsOrNum (result.analysis.bind VideoAnalysis.fake_frames) (JsNum.ofInt 0)

/-- Embeds `result.analysis?.real_frames || 0`. -/
def realFrames (result : VideoResult) : JsNum :=
  jsOrNum (result.analysis.bind VideoAnalysis.real_frames) (JsNum.ofInt 0)

/-- Embeds `result.analysis?.uncertain_frames || 0`. -/
def uncertainFrames (result : VideoResult) : JsNum :=
  jsOrNum (result.analysis.bind VideoAnalysis.uncertain_frames) (JsNum.ofInt 0)

/-- Embeds the fakePercent ternary in VideoResults.jsx:
`totalFrames > 0 ? (fakeFrames / totalFrames * 100).toFixed(1) : 0`. -/
def fakePercent (result : VideoResult) : StrOrNum :=
  if JsNum.lt (JsNum.ofInt 0) (totalFrames result) then
    StrOrNum.str ((((fakeFrames result).div (totalFrames result)).mul
      (JsNum.ofInt 100)).toFixed 1)
  else
    StrOrNum.num (JsNum.ofInt 0)

/-- Embeds the realPercent ternary in VideoResults.jsx. -/
def realPercent (result : VideoResult) : StrOrNum :=
  if JsNum.lt (JsNum.ofInt 0) (totalFrames result) then
    StrOrNum.str ((((realFrames result).div (totalFrames result)).mul
      (JsNum.ofInt 100)).toFixed 1)
  else
    StrOrNum.num (JsNum.ofInt 0)

/-- The rendered output of the VideoResults component, one field per JSX
text element.  A panel that the JSX renders only behind a presence-and-
nonemptiness guard is an Option: none means the panel is suppressed. -/
structure VideoRenderOut where
  verdictIcon : String
  verdictHeading : String
  confidenceHeading : String
  agreementBadge : String × String
  framesAnalyzedBadge : String
  durationText : String
  fpsText : String
  resolutionText : String
  processingTimeText : String
  fakeFramesRow : String
  realFramesRow : String
  uncertainRow : Option String
  modelBreakdownPanel : Option (List (String × String × String × String × String))
  suspiciousPanel : Option (List String)
  timelinePanel : Option (List String)
deriving DecidableEq

/-- Embeds the JSX body of the VideoResults component.  Total: the source
reads optional sub-objects only through optional chaining, `|| 0`
coalescing, or an explicit presence-and-length guard, so no field access
can throw. -/
def VideoResults_render (result : VideoResult) : VideoRenderOut :=
  { verdictIcon := VideoResults.getVerdictIcon result.verdict
    verdictHeading := result.verdict ++ " VIDEO"
    confidenceHeading := result.confidence.toJsString ++ "% Confidence"
    agreementBadge :=
      (VideoResults.getAgreementColor result.agreement_level,
       result.agreement_level ++ " Frame Agreement")
    framesAnalyzedBadge := (totalFrames result).toJsString ++ " Frames Analyzed"
    durationText := jsNumOrNA (result.video_info.bind VideoInfo.duration) ++ "s"
    fpsText := jsNumOrNA (result.video_info.bind VideoInfo.fps)
    resolutionText := jsStrOrNA (result.video_info.bind VideoInfo.resolution)
    processingTimeText := jsNumOrNA result.processing_time_seconds ++ "s"
    fakeFramesRow :=
      (fakeFrames result).toJsString ++ " (" ++ (fakePercent result).display ++ "%)"
    realFramesRow :=
      (realFrames result).toJsString ++ " (" ++ (realPercent result).display ++ "%)"
    uncertainRow :=
      if JsNum.lt (JsNum.ofInt 0) (uncertainFrames result) then
        some ((uncertainFrames result).toJsString)
      else none
    modelBreakdownPanel :=
      match result.model_breakdown with
      | some entries =>
        if 0 < entries.length then
          some (entries.map (fun m =>
            (m.model, m.prediction, m.confidence.toJsString ++ "%",
             m.fake_frame_count.toJsString, m.real_frame_count.toJsString)))
        else none
      | none => none
    suspiciousPanel :=
      match result.suspicious_frames with
      | some frames =>
        if 0 < frames.length then
          some (frames.map (fun f => "Frame " ++ f.toJsString))
        else none
      | none => none
    timelinePanel :=
      match result.confidence_timeline with
      | some timeline =>
        if 0 < timeline.length then
          some (timeline.enum.map (fun p =>
            "Frame " ++ toString p.1 ++ ": " ++ p.2.toFixed 1 ++ "%"))
        else none
      | none => none }

/-! ## Results.jsx -/

namespace Results

/-- Embeds getVerdictVariant in Results.jsx. -/
def getVerdictVariant (verdict : String) : String :=
  if verdict = "FAKE" then "danger"
  else if verdict = "REAL" then "success"
  else if verdict = "UNCERTAIN" then "warning"
  else "secondary"

/-- Embeds getVerdictIcon in Results.jsx. -/
def getVerdictIcon (verdict : String) : String :=
  if verdict = "FAKE" then "🔴"
  else if verdict = "REAL" then "🟢"
  else if verdict = "UNCERTAIN" then "🟡"
  else "⚪"

/-- Embeds getAgreementBadge in Results.jsx. -/
def getAgreementBadge (level : String) : String :=
  if level = "HIGH" then "success"
  else if level = "MEDIUM" then "warning"
  else if level = "LOW" then "danger"
  else "secondary"

end Results

/-- One entry of `individual_results` in an image Detection Result. -/
structure ModelResult where
  model : String
  prediction : String
  confidence : JsNum
deriving DecidableEq

/-- An image Detection Result as read by the Results component.
`individual_results` is an Option because the payload may omit it; the
component itself reads it without a guard. -/
structure ImageResult where
  verdict : String
  confidence : JsNum
  fake_probability : JsNum
  real_probability : JsNum
  agreement_level : String
  individual_results : Option (List ModelResult)
  recommendation : String
deriving DecidableEq

/-- The rendered output of the Results component, one field per JSX text
element. -/
structure ImageRenderOut where
  verdictHeading : String
  confidenceLine : String
  agreementBadge : String × String
  fakeBarLabel : String
  realBarLabel : String
  modelRows : List (String × String × String)
  recommendationLine : String
deriving DecidableEq

/-- Embeds the JSX body of the Results component.  The source evaluates
`result.individual_results.map(...)` with no presence guard, so an absent
`individual_results` throws a TypeError; every other field is read
directly off the result. -/
def Results_render (result : ImageResult) : Except String ImageRenderOut :=
  match result.individual_results with
  | none => Except.error "TypeError: Cannot read properties of undefined (reading map)"
  | some models =>
    Except.ok
      { verdictHeading :=
          Results.getVerdictIcon result.verdict ++ " " ++ result.verdict
        confidenceLine := "Confidence: " ++ result.confidence.toFixed 2 ++ "%"
        agreementBadge :=
          (Results.getAgreementBadge result.agreement_level,
           "Agreement: " ++ result.agreement_level)
        fakeBarLabel :=
          ((result.fake_probability.mul (JsNum.ofInt 100)).toFixed 1) ++ "% Fake"
        realBarLabel :=
          ((result.real_probability.mul (JsNum.ofInt 100)).toFixed 1) ++ "% Real"
        modelRows := models.map (fun m =>
          (m.model, m.prediction, m.confidence.toFixed 1 ++ "%"))
        recommendationLine := "Recommendation: " ++ result.recommendation }

/-! ## Theorems -/

/-- C4: a health response with status ok and detector_ready true makes
apiStatus ready; any other received combination of those fields makes it
not-ready; a thrown health check makes it offline; and in both non-ready
states the analyze button is disabled. -/
theorem C4_health_status :
    checkApiHealth (Except.ok ⟨"ok", true⟩) = ApiStatus.ready
    ∧ (∀ s : String, ∀ b : Bool, ¬(s = "ok" ∧ b = true) →
        checkApiHealth (Except.ok ⟨s, b⟩) = ApiStatus.notReady)
    ∧ (∀ u : Unit, checkApiHealth (Except.error u) = ApiStatus.offline)
    ∧ (∀ loading : Bool, analyzeDisabled loading ApiStatus.notReady = true
        ∧ analyzeDisabled loading ApiStatus.offline = true) := by
  refine ⟨by decide, ?_, fun u => rfl,
    fun loading => by cases loading <;> exact ⟨rfl, rfl⟩⟩
  intro s b h
  cases b with
  | false => simp [checkApiHealth]
  | true =>
    have hs : ¬s = "ok" := fun hs => h ⟨hs, rfl⟩
    simp [checkApiHealth, hs]

/-- C4 witness: concrete health outcomes. -/
theorem C4_health_status_witness :
    checkApiHealth (Except.ok ⟨"ok", true⟩) = ApiStatus.ready
    ∧ checkApiHealth (Except.ok ⟨"ok", false⟩) = ApiStatus.notReady
    ∧ checkApiHealth (Except.error ()) = ApiStatus.offline
    ∧ analyzeDisabled false ApiStatus.offline = true :=
  ⟨C4_health_status.1,
   C4_health_status.2.1 "ok" false (by simp),
   C4_health_status.2.2.1 (),
   (C4_health_status.2.2.2 false).2⟩

/-- C5: intake rejects a file whose declared type is neither image nor
video with the fixed message and never reaches the accept path; rejects an
oversize file with the message naming its category ceiling (16MB images,
50MB videos); and otherwise forwards the file object unchanged. -/
theorem C5_intake_classification :
    ∀ file : FileObj,
      (jsStartsWith file.type "image/" = false →
        jsStartsWith file.type "video/" = false →
        handleFile file
          = IntakeOutcome.rejectedType "Please select an image or video file")
      ∧ (jsStartsWith file.type "video/" = true →
        50 * 1024 * 1024 < file.size →
        handleFile file
          = IntakeOutcome.rejectedSize "File too large. Maximum size is 50MB")
      ∧ (jsStartsWith file.type "image/" = true →
        jsStartsWith file.type "video/" = false →
        16 * 1024 * 1024 < file.size →
        handleFile file
          = IntakeOutcome.rejectedSize "File too large. Maximum size is 16MB")
      ∧ (jsStartsWith file.type "video/" = true →
        file.size ≤ 50 * 1024 * 1024 →
        handleFile file = IntakeOutcome.accepted file)
      ∧ (jsStartsWith file.type "image/" = true →
        jsStartsWith file.type "video/" = false →
        file.size ≤ 16 * 1024 * 1024 →
        handleFile file = IntakeOutcome.accepted file) := by
  intro file
  refine ⟨fun h1 h2 => ?_, fun h1 h2 => ?_, fun h1 h2 h3 => ?_,
    fun h1 h2 => ?_, fun h1 h2 h3 => ?_⟩
  · simp [handleFile, h1, h2]
  · simp [handleFile, h1, h2]
  · simp [handleFile, h1, h2, h3]
  · simp [handleFile, h1, Nat.not_lt.mpr h2]
  · simp [handleFile, h1, h2, Nat.not_lt.mpr h3]

/-- C5 witness: a text file is type-rejected, a 17MB image and a 51MB
video are size-rejected against their ceilings, a small image and a 50MB
video are accepted unchanged. -/
theorem C5_intake_classification_witness :
    handleFile ⟨"notes.txt", "text/plain", 5000⟩
      = IntakeOutcome.rejectedType "Please select an image or video file"
    ∧ handleFile ⟨"big.png", "image/png", 17 * 1024 * 1024⟩
      = IntakeOutcome.rejectedSize "File too large. Maximum size is 16MB"
    ∧ handleFile ⟨"big.mp4", "video/mp4", 51 * 1024 * 1024⟩
      = IntakeOutcome.rejectedSize "File too large. Maximum size is 50MB"
    ∧ handleFile ⟨"ok.png", "image/png", 1024⟩
      = IntakeOutcome.accepted ⟨"ok.png", "image/png", 1024⟩
    ∧ handleFile ⟨"ok.mp4", "video/mp4", 50 * 1024 * 1024⟩
      = IntakeOutcome.accepted ⟨"ok.mp4", "video/mp4", 50 * 1024 * 1024⟩ :=
  ⟨(C5_intake_classification _).1 (by decide) (by decide),
   (C5_intake_classification _).2.2.1 (by decide) (by decide) (by decide),
   (C5_intake_classification _).2.1 (by decide) (by decide),
   (C5_intake_classification _).2.2.2.2 (by decide) (by decide) (by decide),
   (C5_intake_classification _).2.2.2.1 (by decide) (by decide)⟩

/-- C8: for a video result with analysis totals 100/62/35/3, the rendered
fake and real frame percentages are the strings 62.0 and 35.0, produced
by one-decimal toFixed rounding. -/
theorem C8_frame_percentages :
    fakePercent ⟨"FAKE", ⟨91, 1⟩, "HIGH",
      some ⟨some ⟨100, 1⟩, some ⟨62, 1⟩, some ⟨35, 1⟩, some ⟨3, 1⟩⟩,
      none, none, none, none, none⟩ = StrOrNum.str "62.0"
    ∧ realPercent ⟨"FAKE", ⟨91, 1⟩, "HIGH",
      some ⟨some ⟨100, 1⟩, some ⟨62, 1⟩, some ⟨35, 1⟩, some ⟨3, 1⟩⟩,
      none, none, none, none, none⟩ = StrOrNum.str "35.0"
    ∧ (VideoResults_render ⟨"FAKE", ⟨91, 1⟩, "HIGH",
      some ⟨some ⟨100, 1⟩, some ⟨62, 1⟩, some ⟨35, 1⟩, some ⟨3, 1⟩⟩,
      none, none, none, none, none⟩).fakeFramesRow = "62 (62.0%)" := by decide

/-- C9: both renderers map verdict FAKE to the danger variant, REAL to
success, UNCERTAIN to warning and anything else to the neutral secondary
variant with the neutral icon, and map agreement HIGH to success, MEDIUM
to warning, LOW to danger, with the icons the source assigns. -/
theorem C9_verdict_agreement_mapping :
    (VideoResults.getVerdictColor "FAKE" = "danger"
      ∧ Results.getVerdictVariant "FAKE" = "danger"
      ∧ VideoResults.getVerdictColor "REAL" = "success"
      ∧ Results.getVerdictVariant "REAL" = "success"
      ∧ VideoResults.getVerdictColor "UNCERTAIN" = "warning"
      ∧ Results.getVerdictVariant "UNCERTAIN" = "warning")
    ∧ (VideoResults.getVerdictIcon "FAKE" = "⚠️"
      ∧ Results.getVerdictIcon "FAKE" = "🔴"
      ∧ VideoResults.getVerdictIcon "REAL" = "✓"
      ∧ Results.getVerdictIcon "REAL" = "🟢"
      ∧ VideoResults.getVerdictIcon "UNCERTAIN" = "?"
      ∧ Results.getVerdictIcon "UNCERTAIN" = "🟡")
    ∧ (∀ v : String, v ≠ "FAKE" → v ≠ "REAL" → v ≠ "UNCERTAIN" →
        VideoResults.getVerdictColor v = "secondary"
        ∧ Results.getVerdictVariant v = "secondary"
        ∧ VideoResults.getVerdictIcon v = ""
        ∧ Results.getVerdictIcon v = "⚪")
    ∧ (VideoResults.getAgreementColor "HIGH" = "success"
      ∧ Results.getAgreementBadge "HIGH" = "success"
      ∧ VideoResults.getAgreementColor "MEDIUM" = "warning"
      ∧ Results.getAgreementBadge "MEDIUM" = "warning"
      ∧ VideoResults.getAgreementColor "LOW" = "danger"
      ∧ Results.getAgreementBadge "LOW" = "danger")
    ∧ (∀ l : String, l ≠ "HIGH" → l ≠ "MEDIUM" → l ≠ "LOW" →
        VideoResults.getAgreementColor l = "secondary"
        ∧ Results.getAgreementBadge l = "secondary") := by
  refine ⟨by decide, by decide, ?_, by decide, ?_⟩
  · intro v h1 h2 h3
    simp [VideoResults.getVerdictColor, Results.getVerdictVariant,
      VideoResults.getVerdictIcon, Results.getVerdictIcon, h1, h2, h3]
  · intro l h1 h2 h3
    simp [VideoResults.getAgreementColor, Results.getAgreementBadge, h1, h2, h3]

/-- C9 witness: concrete mapped and default values. -/
theorem C9_verdict_agreement_mapping_witness :
    VideoResults.getVerdictColor "FAKE" = "danger"
    ∧ Results.getVerdictIcon "PENDING" = "⚪"
    ∧ Results.getAgreementBadge "NONE" = "secondary" :=
  ⟨C9_verdict_agreement_mapping.1.1,
   (C9_verdict_agreement_mapping.2.2.1 "PENDING"
     (by decide) (by decide) (by decide)).2.2.2,
   (C9_verdict_agreement_mapping.2.2.2.2 "NONE"
     (by decide) (by decide) (by decide)).2⟩

/-- C10: with analysis absent, or total_frames_analyzed absent or zero,
both frame percentages are the guarded number 0, and absent individual
frame counts default to 0. -/
theorem C10_percentage_guard :
    ∀ result : VideoResult,
      (result.analysis = none →
        fakePercent result = StrOrNum.num (JsNum.ofInt 0)
        ∧ realPercent result = StrOrNum.num (JsNum.ofInt 0))
      ∧ (∀ a : VideoAnalysis, result.analysis = some a →
        (a.total_frames_analyzed = none
          ∨ a.total_frames_analyzed = some (JsNum.ofInt 0)) →
        fakePercent result = StrOrNum.num (JsNum.ofInt 0)
        ∧ realPercent result = StrOrNum.num (JsNum.ofInt 0))
      ∧ (∀ a : VideoAnalysis, result.analysis = some a → a.fake_frames = none →
        fakeFrames result = JsNum.ofInt 0)
      ∧ (∀ a : VideoAnalysis, result.analysis = some a → a.real_frames = none →
        realFrames result = JsNum.ofInt 0)
      ∧ (∀ a : VideoAnalysis, result.analysis = some a →
        a.uncertain_frames = none → uncertainFrames result = JsNum.ofInt 0) := by
  intro result
  refine ⟨fun h => ?_, fun a ha ht => ?_, fun a ha hf => ?_, fun a ha hf => ?_,
    fun a ha hf => ?_⟩
  · constructor <;>
      simp [fakePercent, realPercent, totalFrames, h, jsOrNum, JsNum.lt,
        JsNum.ofInt, JsNum.norm]
  · rcases ht with ht | ht <;> constructor <;>
      simp [fakePercent, realPercent, totalFrames, ha, ht, jsOrNum, JsNum.lt,
        JsNum.ofInt, JsNum.norm]
  · simp [fakeFrames, ha, hf, jsOrNum]
  · simp [realFrames, ha, hf, jsOrNum]
  · simp [uncertainFrames, ha, hf, jsOrNum]

/-- C10 witness: a result with no analysis and a result whose analysis has
a zero frame total and absent counts. -/
theorem C10_percentage_guard_witness :
    fakePercent ⟨"UNCERTAIN", ⟨50, 1⟩, "LOW", none, none, none, none, none,
      none⟩ = StrOrNum.num (JsNum.ofInt 0)
    ∧ realFrames ⟨"UNCERTAIN", ⟨50, 1⟩, "LOW",
      some ⟨some (JsNum.ofInt 0), none, none, none⟩, none, none, none, none,
      none⟩ = JsNum.ofInt 0
    ∧ fakePercent ⟨"UNCERTAIN", ⟨50, 1⟩, "LOW",
      some ⟨some (JsNum.ofInt 0), none, none, none⟩, none, none, none, none,
      none⟩ = StrOrNum.num (JsNum.ofInt 0) :=
  ⟨((C10_percentage_guard _).1 rfl).1,
   (C10_percentage_guard _).2.2.2.1 _ rfl rfl,
   ((C10_percentage_guard _).2.1 _ rfl (Or.inr rfl)).1⟩

/-- C1 counterexample: an image result with verdict FAKE and confidence
87.3 whose individual_results is absent makes the image renderer throw;
with individual_results present the confidence renders as the two-decimal
string 87.30%, not 87.3%; and an absent analysis sub-object does not
suppress the Video Analysis panel, which renders its default rows. -/
theorem C1_counterexample :
    Results_render ⟨"FAKE", ⟨873, 10⟩, ⟨873, 1000⟩, ⟨127, 1000⟩, "HIGH", none,
      "Check the source"⟩
      = Except.error "TypeError: Cannot read properties of undefined (reading map)"
    ∧ (Results_render ⟨"FAKE", ⟨873, 10⟩, ⟨873, 1000⟩, ⟨127, 1000⟩, "HIGH",
      some [], "Check the source"⟩).map ImageRenderOut.confidenceLine
      = Except.ok "Confidence: 87.30%"
    ∧ ("Confidence: 87.30%" : String) ≠ "Confidence: 87.3%"
    ∧ (VideoResults_render ⟨"FAKE", ⟨931, 10⟩, "HIGH", none, none, none, none,
      none, none⟩).fakeFramesRow = "0 (0%)" :=
  ⟨rfl, rfl, by decide, by decide⟩

/-- C1 as amended: in the video renderer, absence of model_breakdown,
suspicious_frames or confidence_timeline suppresses that panel, while
absence of analysis or video_info keeps the Video Analysis panel and
renders zero or N/A defaults; the image renderer succeeds exactly when
individual_results is present (empty included) and throws when it is
absent; and the FAKE result with confidence 87.3 renders the FAKE marker
and the two-decimal confidence text 87.30% whether or not
individual_results is empty. -/
theorem C1_render_totality :
    (∀ r : VideoResult, r.model_breakdown = none →
      (VideoResults_render r).modelBreakdownPanel = none)
    ∧ (∀ r : VideoResult, r.suspicious_frames = none →
      (VideoResults_render r).suspiciousPanel = none)
    ∧ (∀ r : VideoResult, r.confidence_timeline = none →
      (VideoResults_render r).timelinePanel = none)
    ∧ (∀ r : VideoResult, r.analysis = none →
      (VideoResults_render r).fakeFramesRow = "0 (0%)"
      ∧ (VideoResults_render r).realFramesRow = "0 (0%)")
    ∧ (∀ r : VideoResult, r.video_info = none →
      (VideoResults_render r).durationText = "N/As"
      ∧ (VideoResults_render r).fpsText = "N/A"
      ∧ (VideoResults_render r).resolutionText = "N/A")
    ∧ (∀ r : ImageResult, (Results_render r).isOk = r.individual_results.isSome)
    ∧ (∀ models : List ModelResult,
        (Results_render ⟨"FAKE", ⟨873, 10⟩, ⟨873, 1000⟩, ⟨127, 1000⟩, "HIGH",
          some models, "Check the source"⟩).map ImageRenderOut.verdictHeading
          = Except.ok "🔴 FAKE"
        ∧ (Results_render ⟨"FAKE", ⟨873, 10⟩, ⟨873, 1000⟩, ⟨127, 1000⟩, "HIGH",
          some models, "Check the source"⟩).map ImageRenderOut.confidenceLine
          = Except.ok "Confidence: 87.30%") := by
  refine ⟨fun r h => ?_, fun r h => ?_, fun r h => ?_, fun r h => ?_,
    fun r h => ?_, fun r => ?_,
    fun models => ⟨by simp only [Results_render, Except.map, Except.ok.injEq]; decide,
      by simp only [Results_render, Except.map, Except.ok.injEq]; decide⟩⟩
  · simp [VideoResults_render, h]
  · simp [VideoResults_render, h]
  · simp [VideoResults_render, h]
  · constructor <;>
      · simp [VideoResults_render, fakeFrames, realFrames, fakePercent,
          realPercent, totalFrames, h, jsOrNum]
        decide
  · refine ⟨?_, ?_, ?_⟩ <;> simp [VideoResults_render, jsNumOrNA, jsStrOrNA, h]
  · obtain ⟨v, c, fp, rp, al, ir, rec⟩ := r
    cases ir <;> simp [Results_render, Except.isOk, Except.toBool]

/-- C1 witness: concrete absent-panel, empty-individual-results and
example-result instances. -/
theorem C1_render_totality_witness :
    (VideoResults_render ⟨"FAKE", ⟨931, 10⟩, "HIGH", none, none, none, none,
      none, none⟩).modelBreakdownPanel = none
    ∧ (VideoResults_render ⟨"FAKE", ⟨931, 10⟩, "HIGH", none, none, none, none,
      none, none⟩).fakeFramesRow = "0 (0%)"
    ∧ (Results_render ⟨"FAKE", ⟨873, 10⟩, ⟨873, 1000⟩, ⟨127, 1000⟩, "HIGH",
      some [], "Check the source"⟩).isOk = true
    ∧ (Results_render ⟨"FAKE", ⟨873, 10⟩, ⟨873, 1000⟩, ⟨127, 1000⟩, "HIGH",
      some [], "Check the source"⟩).map ImageRenderOut.verdictHeading
      = Except.ok "🔴 FAKE" :=
  ⟨C1_render_totality.1 _ rfl,
   (C1_render_totality.2.2.2.1 _ rfl).1,
   (C1_render_totality.2.2.2.2.2.1 _).trans rfl,
   (C1_render_totality.2.2.2.2.2.2 []).1⟩

/-- C2 counterexample: a payload with success false and a present but
empty error string is surfaced as the generic fallback, not verbatim. -/
theorem C2_counterexample :
    handleAnalyzeOutcome (Except.ok ⟨false, some ""⟩)
      = (none, some "Detection failed")
    ∧ (some "" : Option String) ≠ none := by decide

/-- C2 as amended: when the payload has success false, the controller
stores the payload error string verbatim when it is present and
non-empty, falls back to the generic message when it is absent or empty,
and leaves no result set. -/
theorem C2_payload_error_state :
    ∀ r : DetectResponse, r.success = false →
      (∀ s : String, r.error = some s → s ≠ "" →
        handleAnalyzeOutcome (Except.ok r) = (none, some s))
      ∧ ((r.error = none ∨ r.error = some "") →
        handleAnalyzeOutcome (Except.ok r) = (none, some "Detection failed")) := by
  intro r hs
  constructor
  · intro s he hne
    simp [handleAnalyzeOutcome, hs, jsOrStr, he, hne]
  · rintro (he | he) <;> simp [handleAnalyzeOutcome, hs, jsOrStr, he]

/-- C2 witness: the corrupt-file payload of the specification. -/
theorem C2_payload_error_state_witness :
    handleAnalyzeOutcome (Except.ok ⟨false, some "corrupt file"⟩)
      = (none, some "corrupt file") :=
  (C2_payload_error_state ⟨false, some "corrupt file"⟩ rfl).1
    "corrupt file" rfl (by decide)

/-- C3 counterexample: a received server response whose embedded error
string is present but empty is surfaced as the generic fallback of each
endpoint, not verbatim. -/
theorem C3_counterexample :
    detectImageErrMsg (AxiosFailure.response (some "")) = "Detection failed"
    ∧ detectVideoErrMsg (AxiosFailure.response (some ""))
      = "Video detection failed"
    ∧ ("Detection failed" : String) ≠ "" := by decide

/-- C3 as amended: for a failed detect call, a received response with a
non-empty embedded error string is surfaced verbatim; a received response
with an absent or empty error string is surfaced as the generic fallback
of the endpoint; no response after a request is the fixed connect
message; any other failure is the generic message; and a single attempt
maps directly to its outcome with no retry. -/
theorem C3_error_taxonomy :
    (∀ s : String, s ≠ "" →
      detectImageErrMsg (AxiosFailure.response (some s)) = s
      ∧ detectVideoErrMsg (AxiosFailure.response (some s)) = s)
    ∧ detectImageErrMsg (AxiosFailure.response none) = "Detection failed"
    ∧ detectVideoErrMsg (AxiosFailure.response none) = "Video detection failed"
    ∧ detectImageErrMsg AxiosFailure.request = "Cannot connect to server"
    ∧ detectVideoErrMsg AxiosFailure.request = "Cannot connect to server"
    ∧ detectImageErrMsg AxiosFailure.setup
      = "An error occurred while processing the request"
    ∧ detectVideoErrMsg AxiosFailure.setup
      = "An error occurred while processing the video"
    ∧ (∀ f : AxiosFailure,
        detectImage (Except.error f) = Except.error (detectImageErrMsg f)
        ∧ detectVideo (Except.error f) = Except.error (detectVideoErrMsg f)) := by
  refine ⟨?_, rfl, rfl, rfl, rfl, rfl, rfl, fun f => ⟨rfl, rfl⟩⟩
  intro s hs
  constructor <;> simp [detectImageErrMsg, detectVideoErrMsg, jsOrStr, hs]

/-- C3 witness: the corrupt-file server error of the specification. -/
theorem C3_error_taxonomy_witness :
    detectImageErrMsg (AxiosFailure.response (some "corrupt file"))
      = "corrupt file"
    ∧ detectVideoErrMsg (AxiosFailure.response (some "corrupt file"))
      = "corrupt file" :=
  C3_error_taxonomy.1 "corrupt file" (by decide)

/-- C6 counterexample: the allowed wait of detectVideo is the fixed
literal 300000 milliseconds, that is 5 minutes, below the ten-minute
floor of a tens-of-minutes range, while detectImage sets no timeout at
all. -/
theorem C6_counterexample :
    detectVideoTimeoutMs = 300000
    ∧ detectVideoTimeoutMs = 5 * 60 * 1000
    ∧ detectVideoTimeoutMs < 10 * 60 * 1000
    ∧ detectImageTimeoutMs = none := by decide

/-- C6 as amended: detectVideo has the same success behaviour and error
taxonomy as detectImage against the video endpoint, with its own generic
fallback texts, and differs in the allowed wait by setting the fixed
constant 300000 milliseconds where detectImage sets no timeout. -/
theorem C6_video_contract :
    (∀ s : String, s ≠ "" →
      detectVideoErrMsg (AxiosFailure.response (some s))
        = detectImageErrMsg (AxiosFailure.response (some s)))
    ∧ detectVideoErrMsg AxiosFailure.request
      = detectImageErrMsg AxiosFailure.request
    ∧ detectVideoErrMsg (AxiosFailure.response none) = "Video detection failed"
    ∧ detectVideoErrMsg AxiosFailure.setup
      = "An error occurred while processing the video"
    ∧ (∀ r : DetectResponse, detectVideo (Except.ok r) = Except.ok r
        ∧ detectImage (Except.ok r) = Except.ok r)
    ∧ detectVideoTimeoutMs = 300000
    ∧ detectImageTimeoutMs = none := by
  refine ⟨?_, rfl, rfl, rfl, fun r => ⟨rfl, rfl⟩, rfl, rfl⟩
  intro s hs
  simp [detectVideoErrMsg, detectImageErrMsg, jsOrStr, hs]

/-- C6 witness: a concrete non-empty server error and the timeout
constants. -/
theorem C6_video_contract_witness :
    detectVideoErrMsg (AxiosFailure.response (some "corrupt file"))
      = detectImageErrMsg (AxiosFailure.response (some "corrupt file"))
    ∧ detectVideoTimeoutMs = 300000 :=
  ⟨C6_video_contract.1 "corrupt file" (by decide),
   C6_video_contract.2.2.2.2.2.1⟩

/-- C7: in the video path, selecting a file creates one object URL in the
controller, rendering the VideoPreview component creates a second one,
and removal revokes only the first: the preview URL created by
VideoPreview is revoked zero times, contradicting release-exactly-once.
In the image path the single created URL is revoked exactly once. -/
theorem C7_video_preview_url_leak :
    videoScenarioTrace
      = [UrlEffect.create 0, UrlEffect.create 1, UrlEffect.revoke 0]
    ∧ revokeCount videoScenarioTrace 1 = 0
    ∧ imageScenarioTrace = [UrlEffect.create 0, UrlEffect.revoke 0]
    ∧ revokeCount imageScenarioTrace 0 = 1 := by decide
